import Mathlib

/-
Shallow embedding of `src/main.cpp` (OpenGL pyramid demo).

Vectors are modelled with rational components.  Every arithmetic value the
claims mention is exactly representable in IEEE single precision and every
operation performed on them by the program (subtraction of small integers,
normalisation of an axis-aligned vector of length 10, `i * 2.0f - 2.0f`)
rounds to the exact mathematical result, so the rational model computes the
same values the float code does.
-/

namespace Pyramid

structure Vec3 where
  x : ℚ
  y : ℚ
  z : ℚ
deriving DecidableEq, Repr

instance : Sub Vec3 := ⟨fun a b => ⟨a.x - b.x, a.y - b.y, a.z - b.z⟩⟩

theorem Vec3.sub_def (a b : Vec3) :
    a - b = ⟨a.x - b.x, a.y - b.y, a.z - b.z⟩ := rfl

/-- Exact square root of a perfect-square rational (`Nat.sqrt` on numerator
and denominator).  Every vector the program normalises is axis aligned with
squared length 100, so only perfect squares ever reach this function. -/
def ratSqrt (q : ℚ) : ℚ :=
  (Nat.sqrt q.num.toNat : ℚ) / (Nat.sqrt q.den : ℚ)

/-- `glm::normalize`: the vector scaled by the inverse of its Euclidean
length (exact here, see `ratSqrt`). -/
def normalize (v : Vec3) : Vec3 :=
  let n := ratSqrt (v.x * v.x + v.y * v.y + v.z * v.z)
  ⟨v.x / n, v.y / n, v.z / n⟩

/-- The global `cameraPositions` array initialiser (main.cpp lines 23-27). -/
def cameraPositions : Fin 3 → Vec3
  | 0 => ⟨0, 0, 10⟩
  | 1 => ⟨0, 10, 0⟩
  | 2 => ⟨10, 0, 0⟩

/-- The file-scope mutable globals of main.cpp (lines 20-30) plus the
window-close flag written by `processInput`.  The `cameraPositions` array and
`sceneCenter` are kept inside the state so that the theorems can speak about
their (non-)mutation. -/
structure GlobalState where
  sceneCenter : Vec3
  cameraPos0 : Vec3
  cameraPos1 : Vec3
  cameraPos2 : Vec3
  cameraFront : Vec3
  cameraUp : Vec3
  currentCameraPosition : ℤ
  windowShouldClose : Bool
deriving DecidableEq, Repr

/-- `cameraPositions[i]` for the array stored in state `s`.  Indexing outside
0..2 is undefined behaviour in the C++; the default value is arbitrary and
never reached by the program. -/
def cameraPositionsAt (s : GlobalState) (i : ℤ) : Vec3 :=
  if i = 0 then s.cameraPos0
  else if i = 1 then s.cameraPos1
  else if i = 2 then s.cameraPos2
  else ⟨0, 0, 0⟩

/-- The globals' initialisers (main.cpp lines 20-30). -/
def initState : GlobalState where
  sceneCenter := ⟨0, 0, 0⟩
  cameraPos0 := ⟨0, 0, 10⟩
  cameraPos1 := ⟨0, 10, 0⟩
  cameraPos2 := ⟨10, 0, 0⟩
  cameraFront := ⟨0, 0, -1⟩
  cameraUp := ⟨0, 1, 0⟩
  currentCameraPosition := 0
  windowShouldClose := false

/-- Which of the keys polled by `processInput` are down during one call. -/
structure Keys where
  escape : Bool
  key1 : Bool
  key2 : Bool
  key3 : Bool
deriving DecidableEq, Repr

/-- The ESC block of `processInput` (main.cpp lines 178-179). -/
def escStep (keys : Keys) (s : GlobalState) : GlobalState :=
  if keys.escape then { s with windowShouldClose := true } else s

/-- The '1' block of `processInput` (main.cpp lines 185-189): assign index 0,
then recompute the front vector from `cameraPositions[currentCameraPosition]`,
which now reads entry 0. -/
def key1Step (keys : Keys) (s : GlobalState) : GlobalState :=
  if keys.key1 then
    { s with
        currentCameraPosition := 0,
        cameraFront := normalize (s.sceneCenter - cameraPositionsAt s 0) }
  else s

/-- The '2' block of `processInput` (main.cpp lines 192-197): assign index 1,
recompute the front vector from entry 1, and overwrite the up vector. -/
def key2Step (keys : Keys) (s : GlobalState) : GlobalState :=
  if keys.key2 then
    { s with
        currentCameraPosition := 1,
        cameraFront := normalize (s.sceneCenter - cameraPositionsAt s 1),
        cameraUp := ⟨0, 0, -1⟩ }
  else s

/-- The '3' block of `processInput` (main.cpp lines 200-204): assign index 2,
then recompute the front vector from entry 2. -/
def key3Step (keys : Keys) (s : GlobalState) : GlobalState :=
  if keys.key3 then
    { s with
        currentCameraPosition := 2,
        cameraFront := normalize (s.sceneCenter - cameraPositionsAt s 2) }
  else s

/-- `processInput` (main.cpp lines 175-205): the four independent `if`
blocks run in source order ESC, '1', '2', '3'. -/
def processInput (keys : Keys) (s : GlobalState) : GlobalState :=
  key3Step keys (key2Step keys (key1Step keys (escStep keys s)))

/-- A call that presses exactly one of the selection keys '1','2','3'. -/
def onlyKey : Fin 3 → Keys
  | 0 => ⟨false, true, false, false⟩
  | 1 => ⟨false, false, true, false⟩
  | 2 => ⟨false, false, false, true⟩

/-- States the program can be in: the initial globals, and anything produced
from a reachable state by one `processInput` call (the render loop never
writes the camera globals). -/
inductive Reachable : GlobalState → Prop where
  | init : Reachable initState
  | step (keys : Keys) {s : GlobalState} :
      Reachable s → Reachable (processInput keys s)

/-- `readFile` (main.cpp lines 209-230).  The file system is a parameter:
`none` means the file cannot be opened.  The result pairs the returned
string with the lines printed to `std::cerr`. -/
structure ReadResult where
  content : String
  errLog : List String
deriving DecidableEq, Repr

def readFile (fs : String → Option String) (filePath : String) : ReadResult :=
  match fs filePath with
  | none =>
      ⟨"", ["Could not read file " ++ filePath ++ ". File does not exist."]⟩
  | some contents => ⟨contents, []⟩

def GL_VERTEX_SHADER : ℕ := 35633
def GL_FRAGMENT_SHADER : ℕ := 35632

/-- The driver-side outcome of one `glCreateShader`/`glCompileShader` round:
the id handed out by `glCreateShader` (nonzero on success per the GL spec),
the `GL_COMPILE_STATUS` value, and the info log text. -/
structure Driver where
  freshId : ℕ
  compileStatus : Bool
  infoLog : String
deriving DecidableEq, Repr

/-- Observable outcome of `compileShader`: the returned handle, the ids
passed to `glDeleteShader`, and the lines printed to `std::cerr`. -/
structure CompileResult where
  ret : ℕ
  deleted : List ℕ
  errLog : List String
deriving DecidableEq, Repr

/-- `compileShader` (main.cpp lines 235-263): create a shader, compile, and
on `GL_COMPILE_STATUS` false print the stage kind and the driver log, delete
the shader object and return 0; otherwise return the id. -/
def compileShader (d : Driver) (type : ℕ) (source : String) : CompileResult :=
  let id := d.freshId
  if d.compileStatus then
    ⟨id, [], []⟩
  else
    ⟨0, [id],
     ["Failed to compile " ++
        (if type = GL_VERTEX_SHADER then "vertex" else "fragment") ++
        " shader!\n" ++ d.infoLog]⟩

/-- The `indices` array uploaded once to the element buffer
(main.cpp lines 82-89); nothing in the program writes to it afterwards. -/
def indices : List ℕ :=
  [0, 1, 2,
   0, 2, 3,
   0, 3, 4,
   0, 4, 1,
   1, 2, 3,
   1, 3, 4]

structure Vec4 where
  x : ℚ
  y : ℚ
  z : ℚ
  w : ℚ
deriving DecidableEq, Repr

def Vec4.smul (a : ℚ) (v : Vec4) : Vec4 := ⟨a * v.x, a * v.y, a * v.z, a * v.w⟩

def Vec4.add (u v : Vec4) : Vec4 := ⟨u.x + v.x, u.y + v.y, u.z + v.z, u.w + v.w⟩

/-- Column-major 4x4 matrix, as in glm. -/
structure Mat4 where
  c0 : Vec4
  c1 : Vec4
  c2 : Vec4
  c3 : Vec4
deriving DecidableEq, Repr

/-- `glm::mat4(1.0f)`. -/
def mat4Identity : Mat4 :=
  ⟨⟨1, 0, 0, 0⟩, ⟨0, 1, 0, 0⟩, ⟨0, 0, 1, 0⟩, ⟨0, 0, 0, 1⟩⟩

/-- `glm::translate(m, v)`: copies `m` and replaces the last column with
`m[0]*v.x + m[1]*v.y + m[2]*v.z + m[3]`. -/
def translate (m : Mat4) (v : Vec3) : Mat4 :=
  { m with
      c3 := Vec4.add
        (Vec4.add (Vec4.add (Vec4.smul v.x m.c0) (Vec4.smul v.y m.c1))
          (Vec4.smul v.z m.c2)) m.c3 }

/-- Matrix-times-column-vector, column-major. -/
def mulVec (m : Mat4) (v : Vec4) : Vec4 :=
  Vec4.add
    (Vec4.add (Vec4.add (Vec4.smul v.x m.c0) (Vec4.smul v.y m.c1))
      (Vec4.smul v.z m.c2)) (Vec4.smul v.w m.c3)

/-- The per-frame model matrix of instance `i` (main.cpp lines 141-142):
the identity translated by `(i * 2.0f - 2.0f, 0, 0)`. -/
def modelMatrix (i : ℕ) : Mat4 :=
  translate mat4Identity ⟨(i : ℚ) * 2 - 2, 0, 0⟩

/-- World position of a model-space point under a model matrix. -/
def worldPos (m : Mat4) (p : Vec3) : Vec3 :=
  let r := mulVec m ⟨p.x, p.y, p.z, 1⟩
  ⟨r.x, r.y, r.z⟩

/-- Path of the vertex shader file read at startup (main.cpp line 68). -/
def vertexShaderPath : String := "vertex_shader.glsl"

theorem natSqrtHundred : Nat.sqrt (Int.toNat 100) = 10 := by
  rw [show Int.toNat 100 = 100 from rfl]
  simpa using Nat.sqrt_eq 10

theorem escStep_scene (keys : Keys) (s : GlobalState) :
    (escStep keys s).sceneCenter = s.sceneCenter ∧
    (escStep keys s).cameraPos0 = s.cameraPos0 ∧
    (escStep keys s).cameraPos1 = s.cameraPos1 ∧
    (escStep keys s).cameraPos2 = s.cameraPos2 := by
  unfold escStep
  split <;> exact ⟨rfl, rfl, rfl, rfl⟩

theorem key1Step_scene (keys : Keys) (s : GlobalState) :
    (key1Step keys s).sceneCenter = s.sceneCenter ∧
    (key1Step keys s).cameraPos0 = s.cameraPos0 ∧
    (key1Step keys s).cameraPos1 = s.cameraPos1 ∧
    (key1Step keys s).cameraPos2 = s.cameraPos2 := by
  unfold key1Step
  split <;> exact ⟨rfl, rfl, rfl, rfl⟩

theorem key2Step_scene (keys : Keys) (s : GlobalState) :
    (key2Step keys s).sceneCenter = s.sceneCenter ∧
    (key2Step keys s).cameraPos0 = s.cameraPos0 ∧
    (key2Step keys s).cameraPos1 = s.cameraPos1 ∧
    (key2Step keys s).cameraPos2 = s.cameraPos2 := by
  unfold key2Step
  split <;> exact ⟨rfl, rfl, rfl, rfl⟩

theorem key3Step_scene (keys : Keys) (s : GlobalState) :
    (key3Step keys s).sceneCenter = s.sceneCenter ∧
    (key3Step keys s).cameraPos0 = s.cameraPos0 ∧
    (key3Step keys s).cameraPos1 = s.cameraPos1 ∧
    (key3Step keys s).cameraPos2 = s.cameraPos2 := by
  unfold key3Step
  split <;> exact ⟨rfl, rfl, rfl, rfl⟩

/-- One `processInput` call never writes `sceneCenter` or the preset array. -/
theorem processInput_scene (keys : Keys) (s : GlobalState) :
    (processInput keys s).sceneCenter = s.sceneCenter ∧
    (processInput keys s).cameraPos0 = s.cameraPos0 ∧
    (processInput keys s).cameraPos1 = s.cameraPos1 ∧
    (processInput keys s).cameraPos2 = s.cameraPos2 := by
  obtain ⟨a1, a2, a3, a4⟩ := escStep_scene keys s
  obtain ⟨b1, b2, b3, b4⟩ := key1Step_scene keys (escStep keys s)
  obtain ⟨c1, c2, c3, c4⟩ := key2Step_scene keys (key1Step keys (escStep keys s))
  obtain ⟨d1, d2, d3, d4⟩ :=
    key3Step_scene keys (key2Step keys (key1Step keys (escStep keys s)))
  exact ⟨((d1.trans c1).trans b1).trans a1,
         ((d2.trans c2).trans b2).trans a2,
         ((d3.trans c3).trans b3).trans a3,
         ((d4.trans c4).trans b4).trans a4⟩

/-- Every reachable state still carries the initial scene constants. -/
theorem reachable_scene {s : GlobalState} (h : Reachable s) :
    s.sceneCenter = ⟨0, 0, 0⟩ ∧ s.cameraPos0 = ⟨0, 0, 10⟩ ∧
    s.cameraPos1 = ⟨0, 10, 0⟩ ∧ s.cameraPos2 = ⟨10, 0, 0⟩ := by
  induction h with
  | init => exact ⟨rfl, rfl, rfl, rfl⟩
  | step keys hprev ih =>
      obtain ⟨h1, h2, h3, h4⟩ := processInput_scene keys _
      exact ⟨h1.trans ih.1, h2.trans ih.2.1, h3.trans ih.2.2.1,
             h4.trans ih.2.2.2⟩

/-- The camera-front invariant of the state machine. -/
def FrontInv (s : GlobalState) : Prop :=
  s.cameraFront =
    normalize (s.sceneCenter - cameraPositionsAt s s.currentCameraPosition)

theorem escStep_inv (keys : Keys) {s : GlobalState} (h : FrontInv s) :
    FrontInv (escStep keys s) := by
  unfold escStep
  split
  · exact h
  · exact h

theorem key1Step_inv (keys : Keys) {s : GlobalState} (h : FrontInv s) :
    FrontInv (key1Step keys s) := by
  unfold key1Step
  split
  · rfl
  · exact h

theorem key2Step_inv (keys : Keys) {s : GlobalState} (h : FrontInv s) :
    FrontInv (key2Step keys s) := by
  unfold key2Step
  split
  · rfl
  · exact h

theorem key3Step_inv (keys : Keys) {s : GlobalState} (h : FrontInv s) :
    FrontInv (key3Step keys s) := by
  unfold key3Step
  split
  · rfl
  · exact h

theorem processInput_inv (keys : Keys) {s : GlobalState} (h : FrontInv s) :
    FrontInv (processInput keys s) :=
  key3Step_inv keys (key2Step_inv keys (key1Step_inv keys (escStep_inv keys h)))

theorem initState_inv : FrontInv initState := by
  unfold FrontInv initState cameraPositionsAt
  norm_num [normalize, ratSqrt, natSqrtHundred, Vec3.mk.injEq, Vec3.sub_def]

theorem reachable_inv {s : GlobalState} (h : Reachable s) : FrontInv s := by
  induction h with
  | init => exact initState_inv
  | step keys hprev ih => exact processInput_inv keys ih

theorem escStep_idx (keys : Keys) (s : GlobalState) :
    (escStep keys s).currentCameraPosition = s.currentCameraPosition := by
  unfold escStep
  split <;> rfl

theorem key1Step_idx (keys : Keys) (s : GlobalState) :
    (key1Step keys s).currentCameraPosition = s.currentCameraPosition ∨
    (key1Step keys s).currentCameraPosition = 0 := by
  unfold key1Step
  split
  · exact Or.inr rfl
  · exact Or.inl rfl

theorem key2Step_idx (keys : Keys) (s : GlobalState) :
    (key2Step keys s).currentCameraPosition = s.currentCameraPosition ∨
    (key2Step keys s).currentCameraPosition = 1 := by
  unfold key2Step
  split
  · exact Or.inr rfl
  · exact Or.inl rfl

theorem key3Step_idx (keys : Keys) (s : GlobalState) :
    (key3Step keys s).currentCameraPosition = s.currentCameraPosition ∨
    (key3Step keys s).currentCameraPosition = 2 := by
  unfold key3Step
  split
  · exact Or.inr rfl
  · exact Or.inl rfl

/-- One `processInput` call leaves the index unchanged or sets it to 0, 1
or 2. -/
theorem processInput_idx (keys : Keys) (s : GlobalState) :
    (processInput keys s).currentCameraPosition = s.currentCameraPosition ∨
    (processInput keys s).currentCameraPosition = 0 ∨
    (processInput keys s).currentCameraPosition = 1 ∨
    (processInput keys s).currentCameraPosition = 2 := by
  show (key3Step keys (key2Step keys (key1Step keys
        (escStep keys s)))).currentCameraPosition = s.currentCameraPosition ∨
      (key3Step keys (key2Step keys (key1Step keys
        (escStep keys s)))).currentCameraPosition = 0 ∨
      (key3Step keys (key2Step keys (key1Step keys
        (escStep keys s)))).currentCameraPosition = 1 ∨
      (key3Step keys (key2Step keys (key1Step keys
        (escStep keys s)))).currentCameraPosition = 2
  rcases key3Step_idx keys (key2Step keys (key1Step keys (escStep keys s)))
    with h3 | h3
  · rw [h3]
    rcases key2Step_idx keys (key1Step keys (escStep keys s)) with h2 | h2
    · rw [h2]
      rcases key1Step_idx keys (escStep keys s) with h1 | h1
      · rw [h1, escStep_idx]
        exact Or.inl rfl
      · rw [h1]
        exact Or.inr (Or.inl rfl)
    · rw [h2]
      exact Or.inr (Or.inr (Or.inl rfl))
  · rw [h3]
    exact Or.inr (Or.inr (Or.inr rfl))

/-- The selection index of a reachable state is always 0, 1 or 2. -/
theorem reachable_idx {s : GlobalState} (h : Reachable s) :
    s.currentCameraPosition = 0 ∨ s.currentCameraPosition = 1 ∨
    s.currentCameraPosition = 2 := by
  induction h with
  | init => exact Or.inl rfl
  | @step keys t hprev ih =>
      rcases processInput_idx keys t with h | h | h | h
      · rw [h]
        exact ih
      · exact Or.inl h
      · exact Or.inr (Or.inl h)
      · exact Or.inr (Or.inr h)

/-- C3: in the initial state and in every state produced by any sequence of
`processInput` calls, `cameraFront` equals
`normalize (sceneCenter - cameraPositions[currentCameraPosition])` (and the
scene center of every reachable state is the origin, by `reachable_scene`). -/
theorem front_invariant {s : GlobalState} (h : Reachable s) :
    s.cameraFront =
      normalize (s.sceneCenter - cameraPositionsAt s s.currentCameraPosition) :=
  reachable_inv h

/-- Witness for C3 at the initial state. -/
theorem front_invariant_witness :
    initState.cameraFront =
      normalize (initState.sceneCenter -
        cameraPositionsAt initState initState.currentCameraPosition) :=
  front_invariant Reachable.init

/-- C10: after any sequence of `processInput` calls the camera index is 0, 1
or 2, and the `cameraPositions` presets and `sceneCenter` still hold their
initial values: no operation mutates them. -/
theorem camera_globals_invariant {s : GlobalState} (h : Reachable s) :
    (s.currentCameraPosition = 0 ∨ s.currentCameraPosition = 1 ∨
      s.currentCameraPosition = 2) ∧
    s.cameraPos0 = initState.cameraPos0 ∧
    s.cameraPos1 = initState.cameraPos1 ∧
    s.cameraPos2 = initState.cameraPos2 ∧
    s.sceneCenter = initState.sceneCenter :=
  ⟨reachable_idx h, (reachable_scene h).2.1, (reachable_scene h).2.2.1,
   (reachable_scene h).2.2.2, (reachable_scene h).1⟩

/-- Witness for C10 at the initial state. -/
theorem camera_globals_invariant_witness :
    (initState.currentCameraPosition = 0 ∨
      initState.currentCameraPosition = 1 ∨
      initState.currentCameraPosition = 2) ∧
    initState.cameraPos0 = initState.cameraPos0 ∧
    initState.cameraPos1 = initState.cameraPos1 ∧
    initState.cameraPos2 = initState.cameraPos2 ∧
    initState.sceneCenter = initState.sceneCenter :=
  camera_globals_invariant Reachable.init

/-- C1: in any reachable state, a `processInput` call pressing exactly
selection key i (key '1','2','3' is `onlyKey 0/1/2`) sets the camera
position to `cameraPositions[i]` and the front vector to
`normalize (sceneCenter - cameraPositions[i])`; in particular key '2'
yields position (0,10,0) and front (0,-1,0). -/
theorem select_sets_position_and_front {s : GlobalState} (h : Reachable s) :
    (∀ i : Fin 3,
      cameraPositionsAt (processInput (onlyKey i) s)
          (processInput (onlyKey i) s).currentCameraPosition =
        cameraPositions i ∧
      (processInput (onlyKey i) s).cameraFront =
        normalize (⟨0, 0, 0⟩ - cameraPositions i)) ∧
    cameraPositionsAt (processInput (onlyKey 1) s)
        (processInput (onlyKey 1) s).currentCameraPosition = ⟨0, 10, 0⟩ ∧
    (processInput (onlyKey 1) s).cameraFront = ⟨0, -1, 0⟩ := by
  obtain ⟨hc, h0, h1, h2⟩ := reachable_scene h
  refine ⟨?_, ?_, ?_⟩
  · intro i
    fin_cases i
    · constructor
      · show s.cameraPos0 = cameraPositions 0
        rw [h0]
        rfl
      · show normalize (s.sceneCenter - s.cameraPos0) =
          normalize (⟨0, 0, 0⟩ - cameraPositions 0)
        rw [hc, h0]
        rfl
    · constructor
      · show s.cameraPos1 = cameraPositions 1
        rw [h1]
        rfl
      · show normalize (s.sceneCenter - s.cameraPos1) =
          normalize (⟨0, 0, 0⟩ - cameraPositions 1)
        rw [hc, h1]
        rfl
    · constructor
      · show s.cameraPos2 = cameraPositions 2
        rw [h2]
        rfl
      · show normalize (s.sceneCenter - s.cameraPos2) =
          normalize (⟨0, 0, 0⟩ - cameraPositions 2)
        rw [hc, h2]
        rfl
  · show s.cameraPos1 = ⟨0, 10, 0⟩
    exact h1
  · show normalize (s.sceneCenter - s.cameraPos1) = ⟨0, -1, 0⟩
    rw [hc, h1]
    norm_num [normalize, ratSqrt, natSqrtHundred, Vec3.mk.injEq, Vec3.sub_def]

/-- Witness for C1: the call pressing '2' from the initial state. -/
theorem select_sets_position_and_front_witness :
    (∀ i : Fin 3,
      cameraPositionsAt (processInput (onlyKey i) initState)
          (processInput (onlyKey i) initState).currentCameraPosition =
        cameraPositions i ∧
      (processInput (onlyKey i) initState).cameraFront =
        normalize (⟨0, 0, 0⟩ - cameraPositions i)) ∧
    cameraPositionsAt (processInput (onlyKey 1) initState)
        (processInput (onlyKey 1) initState).currentCameraPosition =
      ⟨0, 10, 0⟩ ∧
    (processInput (onlyKey 1) initState).cameraFront = ⟨0, -1, 0⟩ :=
  select_sets_position_and_front Reachable.init

/-- C2: any call with key '2' down ends with up = (0,0,-1); a call pressing
only key '1' or only key '3' (ESC free to be down or not) leaves up exactly
as it was, whatever its prior value. -/
theorem up_vector_behavior :
    (∀ (e k1 k3 : Bool) (s : GlobalState),
        (processInput ⟨e, k1, true, k3⟩ s).cameraUp = ⟨0, 0, -1⟩) ∧
    (∀ (e : Bool) (s : GlobalState),
        (processInput ⟨e, true, false, false⟩ s).cameraUp = s.cameraUp ∧
        (processInput ⟨e, false, false, true⟩ s).cameraUp = s.cameraUp) := by
  constructor
  · intro e k1 k3 s
    cases e <;> cases k1 <;> cases k3 <;> rfl
  · intro e s
    cases e <;> exact ⟨rfl, rfl⟩

/-- C8: applying the transition of one selection key twice in a row gives
exactly the state obtained by applying it once. -/
theorem select_idempotent (i : Fin 3) (s : GlobalState) :
    processInput (onlyKey i) (processInput (onlyKey i) s) =
      processInput (onlyKey i) s := by
  obtain ⟨c, p0, p1, p2, f, u, idx, w⟩ := s
  fin_cases i <;> rfl

/-- C9: the three selection branches run in key order 1, 2, 3, so the
highest-numbered pressed key fixes the final index and front vector, and up
becomes (0,0,-1) whenever '2' is among the pressed keys; pressing '2' and
'3' together gives the side view position with up = (0,0,-1). -/
theorem key_priority :
    (∀ (e k1 k2 : Bool) (s : GlobalState),
        (processInput ⟨e, k1, k2, true⟩ s).currentCameraPosition = 2 ∧
        (processInput ⟨e, k1, k2, true⟩ s).cameraFront =
          normalize (s.sceneCenter - cameraPositionsAt s 2)) ∧
    (∀ (e k1 : Bool) (s : GlobalState),
        (processInput ⟨e, k1, true, false⟩ s).currentCameraPosition = 1 ∧
        (processInput ⟨e, k1, true, false⟩ s).cameraFront =
          normalize (s.sceneCenter - cameraPositionsAt s 1)) ∧
    (∀ (e : Bool) (s : GlobalState),
        (processInput ⟨e, true, false, false⟩ s).currentCameraPosition = 0 ∧
        (processInput ⟨e, true, false, false⟩ s).cameraFront =
          normalize (s.sceneCenter - cameraPositionsAt s 0)) ∧
    (∀ (e k1 k3 : Bool) (s : GlobalState),
        (processInput ⟨e, k1, true, k3⟩ s).cameraUp = ⟨0, 0, -1⟩) ∧
    ((processInput ⟨false, false, true, true⟩ initState).currentCameraPosition
        = 2 ∧
      cameraPositionsAt (processInput ⟨false, false, true, true⟩ initState)
        (processInput ⟨false, false, true, true⟩
          initState).currentCameraPosition = ⟨10, 0, 0⟩ ∧
      (processInput ⟨false, false, true, true⟩ initState).cameraUp =
        ⟨0, 0, -1⟩) := by
  refine ⟨?_, ?_, ?_, ?_, rfl, rfl, rfl⟩
  · intro e k1 k2 s
    cases e <;> cases k1 <;> cases k2 <;> exact ⟨rfl, rfl⟩
  · intro e k1 s
    cases e <;> cases k1 <;> exact ⟨rfl, rfl⟩
  · intro e s
    cases e <;> exact ⟨rfl, rfl⟩
  · intro e k1 k3 s
    cases e <;> cases k1 <;> cases k3 <;> rfl

/-- C4: `readFile` on a path that cannot be opened returns the empty string
and logs one diagnostic line; it is a total function (no fault propagates),
and on an openable file it returns exactly the file's contents with no
diagnostic. -/
theorem readFile_contract (fs : String → Option String) (filePath : String) :
    (fs filePath = none →
      readFile fs filePath =
        ⟨"", ["Could not read file " ++ filePath ++ ". File does not exist."]⟩) ∧
    (∀ contents, fs filePath = some contents →
      readFile fs filePath = ⟨contents, []⟩) := by
  constructor
  · intro h
    simp [readFile, h]
  · intro c h
    simp [readFile, h]

/-- Witness for C4: a file system with no files, at the vertex shader path. -/
theorem readFile_contract_witness :
    readFile (fun _ => none) vertexShaderPath =
      ⟨"", ["Could not read file " ++ vertexShaderPath ++
            ". File does not exist."]⟩ :=
  (readFile_contract (fun _ => none) vertexShaderPath).1 rfl

/-- C5: when the driver reports compilation failure, `compileShader` returns
the zero handle, deletes the failed shader object, and logs the stage kind
("vertex" iff the type is GL_VERTEX_SHADER, "fragment" otherwise) followed
by the driver log; on success it returns the (nonzero) shader id. -/
theorem compileShader_contract (d : Driver) (type : ℕ) (source : String) :
    (d.compileStatus = false →
      compileShader d type source =
        ⟨0, [d.freshId],
         ["Failed to compile " ++
            (if type = GL_VERTEX_SHADER then "vertex" else "fragment") ++
            " shader!\n" ++ d.infoLog]⟩) ∧
    (d.compileStatus = true →
      compileShader d type source = ⟨d.freshId, [], []⟩) ∧
    (d.compileStatus = true → d.freshId ≠ 0 →
      (compileShader d type source).ret ≠ 0) := by
  refine ⟨?_, ?_, ?_⟩
  · intro h
    simp [compileShader, h]
  · intro h
    simp [compileShader, h]
  · intro h hid
    simpa [compileShader, h] using hid

/-- Witness for C5: a failing vertex-stage compile and a succeeding
fragment-stage compile on concrete drivers. -/
theorem compileShader_contract_witness :
    compileShader ⟨7, false, "bad token"⟩ GL_VERTEX_SHADER "bad src" =
      ⟨0, [7],
       ["Failed to compile " ++
          (if GL_VERTEX_SHADER = GL_VERTEX_SHADER then "vertex" else "fragment")
          ++ " shader!\n" ++ "bad token"]⟩ ∧
    (compileShader ⟨7, true, ""⟩ GL_FRAGMENT_SHADER "good src").ret ≠ 0 :=
  ⟨(compileShader_contract ⟨7, false, "bad token"⟩ GL_VERTEX_SHADER
      "bad src").1 rfl,
   (compileShader_contract ⟨7, true, ""⟩ GL_FRAGMENT_SHADER
      "good src").2.2 rfl (by decide)⟩

/-- C6: the index buffer holds exactly 18 indices (6 triangles of 3), each
referencing one of the 5 vertices (index at most 4); in the embedding it is
a constant, matching the one-time upload that is never modified. -/
theorem indices_wellformed :
    indices.length = 18 ∧
    indices.all (fun i => i ≤ 4) = true ∧
    indices.length = 6 * 3 := by
  decide

/-- C7: the model matrix of instance i is the identity translated by
(i*2-2, 0, 0), so the three instances sit at world positions (-2,0,0),
(0,0,0) and (2,0,0) on every frame. -/
theorem model_instance_positions :
    (∀ i : Fin 3,
        worldPos (modelMatrix i.val) ⟨0, 0, 0⟩ =
          ⟨(i.val : ℚ) * 2 - 2, 0, 0⟩) ∧
    worldPos (modelMatrix 0) ⟨0, 0, 0⟩ = ⟨-2, 0, 0⟩ ∧
    worldPos (modelMatrix 1) ⟨0, 0, 0⟩ = ⟨0, 0, 0⟩ ∧
    worldPos (modelMatrix 2) ⟨0, 0, 0⟩ = ⟨2, 0, 0⟩ := by
  refine ⟨?_, ?_, ?_, ?_⟩
  · intro i
    fin_cases i <;>
      norm_num [worldPos, modelMatrix, translate, mat4Identity, mulVec,
        Vec4.smul, Vec4.add, Vec3.mk.injEq]
  · norm_num [worldPos, modelMatrix, translate, mat4Identity, mulVec,
      Vec4.smul, Vec4.add, Vec3.mk.injEq]
  · norm_num [worldPos, modelMatrix, translate, mat4Identity, mulVec,
      Vec4.smul, Vec4.add, Vec3.mk.injEq]
  · norm_num [worldPos, modelMatrix, translate, mat4Identity, mulVec,
      Vec4.smul, Vec4.add, Vec3.mk.injEq]

end Pyramid
